import Mathlib

/-!
Verification of the session-lifecycle manager of `server.js`
(dashboard-administrativo): the in-memory session registry
(`sessions : Map`), its periodic expiry sweep, and the HTTP handlers
`/api/config`, `/api/disconnect`, `/api/status`, `/api/send`.

The JavaScript source is shallowly embedded: the `sessions` Map becomes an
insertion-ordered association list, asynchronous external effects (client
construction, login, destroy, event observers, timers) become an explicit
environment record describing the external client's behaviour, and each
handler becomes a pure function from request, environment and registry to
the new registry, an action trace and a response.
-/

namespace Dashboard

/-- JavaScript truthiness of an optional string field, as in `if (!token)`:
`undefined`/absent and the empty string are falsy. -/
def truthy : Option String → Bool
  | none => false
  | some s => s ≠ ""

/-- JavaScript `x || null` on an optional string: the empty string collapses
to `null`, as in `clientId: clientId || null`. -/
def jsOr : Option String → Option String
  | none => none
  | some s => if s = "" then none else some s

/-- A session record, `{ client, clientId, createdAt }` in the source.
Clients are identified by numeric handles; `client` is the handle of the
owned external client. -/
structure Session where
  client : Option Nat
  clientId : Option String
  createdAt : Nat
deriving Repr, DecidableEq

/-- The `sessions` Map, embedded as an insertion-ordered association list
from session key to record. -/
abbrev Registry := List (String × Session)

/-- `sessions.get(k)`: first record stored under key `k`, if any. -/
def mget (r : Registry) (k : String) : Option Session :=
  match r.find? (fun p => p.1 == k) with
  | some p => some p.2
  | none => none

/-- `sessions.has(k)`. -/
def mhas (r : Registry) (k : String) : Bool :=
  (mget r k).isSome

/-- `sessions.delete(k)`: removes every entry stored under `k`. -/
def mdelete (r : Registry) (k : String) : Registry :=
  r.filter (fun p => p.1 != k)

/-- `sessions.set(k, v)`: replaces the value in place when the key is
present (JavaScript Maps keep the original insertion position), otherwise
appends a new entry. -/
def mset : Registry → String → Session → Registry
  | [], k, v => [(k, v)]
  | (k', v') :: rest, k, v =>
    if k' == k then (k, v) :: rest else (k', v') :: mset rest k v

/-- The registry holds at most one record per session key. -/
def NodupKeys (r : Registry) : Prop :=
  (r.map Prod.fst).Nodup

/-- The expiry test of the sweep, `now - session.createdAt > 3600000`,
over integers as JavaScript arithmetic computes it. -/
def expired (now createdAt : Nat) : Bool :=
  (3600000 : Int) < (now : Int) - (createdAt : Int)

/-- The periodic sweep body (the `setInterval` callback): iterates the
registry in insertion order; every record whose age exceeds 3600000 ms has
`destroy()` requested on its client (if set) and is deleted; the rest are
kept. `destroyFails` tells which destroy requests fail; the source swallows
such failures with `.catch(() => {})`, so the result may not depend on it.
Returns the surviving registry and the handles destroy was requested on. -/
def sweep (now : Nat) (destroyFails : Nat → Bool) : Registry → Registry × List Nat
  | [] => ([], [])
  | (k, s) :: rest =>
    let p := sweep now destroyFails rest
    if expired now s.createdAt then (p.1, s.client.toList ++ p.2)
    else ((k, s) :: p.1, p.2)

/-- Which of the three completion signals of the bounded wait fires first:
the one-shot ready observer, the one-shot error observer, or the 5000 ms
timer. -/
inductive WaitEvt
  | ready
  | err
  | timeout
deriving Repr, DecidableEq

/-- Behaviour of the external world during one `/api/config` request:
whether `client.login(token)` rejects, the value of `client.user` right
after login resolves (its tag, `none` when unset), which wait signal fires
first (relevant only when `user` was unset), the value of `client.user`
when the response body is built, `Date.now()` at the `sessions.set` call,
and the handle of the freshly constructed client. -/
structure ConfigEnv where
  loginFails : Bool
  userAfterLogin : Option String
  waitEvt : WaitEvt
  userFinal : Option String
  now : Nat
  fresh : Nat
deriving Repr, DecidableEq

/-- The body of a POST `/api/config` request. -/
structure ConfigReq where
  token : Option String
  clientId : Option String
  sessionId : Option String
deriving Repr, DecidableEq

/-- Observable actions of the `/api/config` handler, in program order:
destroy request on the previous session's client, registration of the
logging `once('ready')` observer, the login call, registration and
deregistration of the bounded wait's one-shot ready/error observers, the
`console.error` in the catch around the wait, the `sessions.set` /
`sessions.delete` mutations, and the HTTP response with its status. -/
inductive Act
  | destroyOld (c : Nat)
  | regLogReady
  | login
  | regWaitReady
  | regWaitErr
  | deregWaitReady
  | deregWaitErr
  | logWaitError
  | setSession
  | deleteSession
  | respond (status : Nat)
deriving Repr, DecidableEq

/-- The JSON response of `/api/config`: HTTP status, `ok`, and `botTag`
(`none` both for the error bodies, which carry no `botTag`, and for a
success body with `botTag: null`). -/
structure ConfigResp where
  status : Nat
  ok : Bool
  botTag : Option String
deriving Repr, DecidableEq

/-- The trace of the bounded wait (`await new Promise(...)` wrapped in
`try/catch`): both one-shot observers are attached; whichever signal fires
first runs `cleanup()`, deregistering both; a rejection from the error
observer is caught by the surrounding `catch (e) { console.error(...) }`
and execution continues. -/
def waitTrace : WaitEvt → List Act
  | .ready => [.regWaitReady, .regWaitErr, .deregWaitReady, .deregWaitErr]
  | .err => [.regWaitReady, .regWaitErr, .deregWaitReady, .deregWaitErr, .logWaitError]
  | .timeout => [.regWaitReady, .regWaitErr, .deregWaitReady, .deregWaitErr]

/-- Actions of the "Se já existe sessão, desconectar bot anterior" block:
a destroy request on the previous session's client when a record exists and
its `client` field is set, nothing otherwise. -/
def destroyActs (r : Registry) (sid : String) : List Act :=
  match mget r sid with
  | some old =>
    match old.client with
    | some c => [.destroyOld c]
    | none => []
  | none => []

/-- Actions of the `if (!discordClient.user)` block: the bounded wait runs
only when `client.user` is unset right after login. -/
def waitActs (e : ConfigEnv) : List Act :=
  match e.userAfterLogin with
  | some _ => []
  | none => waitTrace e.waitEvt

/-- The POST `/api/config` handler. Validates `token` and `sessionId`;
requests destroy on an existing session's client (failures swallowed);
constructs a fresh client, attaches the logging ready observer, then logs
in; on login rejection the catch block deletes the session key and responds
500. Otherwise, if `client.user` is unset, performs the bounded wait (whose
rejection is caught and logged); then stores
`{client, clientId: clientId || null, createdAt: Date.now()}` and responds
200 with the currently available `botTag`. -/
def configHandler (req : ConfigReq) (e : ConfigEnv) (r : Registry) :
    Registry × List Act × ConfigResp :=
  if !truthy req.token then (r, [.respond 400], ⟨400, false, none⟩)
  else if !truthy req.sessionId then (r, [.respond 400], ⟨400, false, none⟩)
  else
    let sid := req.sessionId.getD ""
    let pre : List Act := destroyActs r sid ++ [.regLogReady, .login]
    if e.loginFails then
      (mdelete r sid, pre ++ [.deleteSession, .respond 500], ⟨500, false, none⟩)
    else
      (mset r sid ⟨some e.fresh, jsOr req.clientId, e.now⟩,
       pre ++ waitActs e ++ [.setSession, .respond 200],
       ⟨200, true, e.userFinal⟩)

/-- Response of an endpoint whose success body is `{ok:true, ...}`. -/
structure SimpleResp where
  status : Nat
  ok : Bool
deriving Repr, DecidableEq

/-- The POST `/api/disconnect` handler: 400 on a falsy `sessionId`; on an
absent key, `{ok:true}` with no destroy request and no mutation; otherwise
destroy is requested on the record's client (failures logged, swallowed),
the record is deleted, and `{ok:true}` is returned. Also returns the
handles destroy was requested on. -/
def disconnectHandler (sessionId : Option String) (r : Registry) :
    Registry × SimpleResp × List Nat :=
  if !truthy sessionId then (r, ⟨400, false⟩, [])
  else
    let sid := sessionId.getD ""
    match mget r sid with
    | none => (r, ⟨200, true⟩, [])
    | some s => (mdelete r sid, ⟨200, true⟩, s.client.toList)

/-- Response of GET `/api/status`: 400 on a falsy `sessionId`, otherwise
`{online: b}`. -/
inductive StatusResp
  | badRequest
  | online (b : Bool)
deriving Repr, DecidableEq

/-- Truthiness of `session && session.client && session.client.isReady()`,
where `ready` reports `isReady()` per client handle. -/
def sessionOnline (ready : Nat → Bool) (r : Registry) (sid : String) : Bool :=
  match mget r sid with
  | some s =>
    match s.client with
    | some c => ready c
    | none => false
  | none => false

/-- The GET `/api/status` handler. -/
def statusHandler (sessionId : Option String) (ready : Nat → Bool)
    (r : Registry) : StatusResp :=
  if !truthy sessionId then .badRequest
  else .online (sessionOnline ready r (sessionId.getD ""))

/-- The body of a POST `/api/send` request. -/
structure SendReq where
  channelId : Option String
  message : Option String
  sessionId : Option String
deriving Repr, DecidableEq

/-- Outcome of the channel fetch/send interaction with the external client
once all checks have passed: `channels.fetch` resolves null, the channel
has no `send`, the send resolves with a message id, or an exception is
thrown. -/
inductive SendOutcome
  | fetchNull
  | notSendable
  | sent (id : String)
  | throws (msg : String)
deriving Repr, DecidableEq

/-- Response of POST `/api/send`: status plus the body's `error` or `id`. -/
inductive SendResp
  | badRequest (error : String)
  | notFound (error : String)
  | okSent (id : String)
  | sendError (msg : String)
deriving Repr, DecidableEq

/-- The POST `/api/send` handler: 400 on falsy `sessionId`; then 400
`bot não conectado` unless the session exists with a ready client; then 400
`channelId e message são obrigatórios` when either field is falsy; then the
fetch/send interaction. -/
def sendHandler (req : SendReq) (ready : Nat → Bool) (out : SendOutcome)
    (r : Registry) : SendResp :=
  if !truthy req.sessionId then .badRequest "sessionId é obrigatório"
  else if !sessionOnline ready r (req.sessionId.getD "") then
    .badRequest "bot não conectado"
  else if !truthy req.channelId || !truthy req.message then
    .badRequest "channelId e message são obrigatórios"
  else
    match out with
    | .fetchNull => .notFound "canal não encontrado"
    | .notSendable => .badRequest "canal não suporta envio de mensagem"
    | .sent i => .okSent i
    | .throws m => .sendError m

/-! Lemmas about the registry map operations. -/

theorem mget_cons (k' : String) (v : Session) (r : Registry) (k : String) :
    mget ((k', v) :: r) k = if k' == k then some v else mget r k := by
  simp only [mget, List.find?]
  cases h : k' == k <;> simp [h]

theorem mget_mset_self (r : Registry) (k : String) (v : Session) :
    mget (mset r k v) k = some v := by
  induction r with
  | nil => simp [mset, mget_cons]
  | cons hd tl ih =>
    obtain ⟨k', v'⟩ := hd
    cases h : k' == k with
    | true => simp [mset, h, mget_cons]
    | false => simp [mset, h, mget_cons, ih]

theorem mget_mset_ne (r : Registry) (k : String) (v : Session) (k' : String)
    (h : k ≠ k') : mget (mset r k v) k' = mget r k' := by
  induction r with
  | nil => simp [mset, mget_cons, h]
  | cons hd tl ih =>
    obtain ⟨k₁, v₁⟩ := hd
    cases hb : k₁ == k with
    | true =>
      have hk : k₁ = k := by simpa using hb
      subst hk
      simp [mset, hb, mget_cons, h]
    | false => simp [mset, hb, mget_cons, ih]

theorem mget_mdelete_self (r : Registry) (k : String) :
    mget (mdelete r k) k = none := by
  induction r with
  | nil => rfl
  | cons hd tl ih =>
    obtain ⟨k', v'⟩ := hd
    by_cases hb : k' = k
    · subst hb
      simpa [mdelete, List.filter_cons] using ih
    · simpa [mdelete, List.filter_cons, hb, mget_cons] using ih

theorem mget_none_not_mem_keys (r : Registry) (k : String)
    (h : mget r k = none) : k ∉ r.map Prod.fst := by
  induction r with
  | nil => simp
  | cons hd tl ih =>
    obtain ⟨k₁, v₁⟩ := hd
    rw [mget_cons] at h
    cases hb : k₁ == k with
    | true => simp [hb] at h
    | false =>
      rw [hb] at h
      simp only [Bool.false_eq_true, if_false] at h
      have hne : k₁ ≠ k := by simpa using hb
      simp only [List.map_cons, List.mem_cons]
      rintro (rfl | hmem)
      · exact hne rfl
      · exact ih h hmem

theorem keys_mset_of_mem (r : Registry) (k : String) (v s : Session)
    (h : mget r k = some s) :
    (mset r k v).map Prod.fst = r.map Prod.fst := by
  induction r with
  | nil => simp [mget] at h
  | cons hd tl ih =>
    obtain ⟨k₁, v₁⟩ := hd
    rw [mget_cons] at h
    cases hb : k₁ == k with
    | true =>
      have hk : k₁ = k := by simpa using hb
      subst hk
      simp [mset, hb]
    | false =>
      rw [hb] at h
      simp only [Bool.false_eq_true, if_false] at h
      simp [mset, hb, ih h]

theorem keys_mset_of_none (r : Registry) (k : String) (v : Session)
    (h : mget r k = none) :
    (mset r k v).map Prod.fst = r.map Prod.fst ++ [k] := by
  induction r with
  | nil => simp [mset]
  | cons hd tl ih =>
    obtain ⟨k₁, v₁⟩ := hd
    rw [mget_cons] at h
    cases hb : k₁ == k with
    | true => simp [hb] at h
    | false =>
      rw [hb] at h
      simp only [Bool.false_eq_true, if_false] at h
      simp [mset, hb, ih h]

theorem nodupKeys_mset (r : Registry) (k : String) (v : Session)
    (h : NodupKeys r) : NodupKeys (mset r k v) := by
  cases hm : mget r k with
  | some s =>
    unfold NodupKeys
    rw [keys_mset_of_mem r k v s hm]
    exact h
  | none =>
    unfold NodupKeys
    rw [keys_mset_of_none r k v hm]
    refine List.Nodup.append h (List.nodup_singleton k) ?_
    simpa [List.disjoint_singleton] using mget_none_not_mem_keys r k hm

theorem nodupKeys_mdelete (r : Registry) (k : String)
    (h : NodupKeys r) : NodupKeys (mdelete r k) := by
  have hsub : List.Sublist ((mdelete r k).map Prod.fst) (r.map Prod.fst) :=
    List.Sublist.map Prod.fst (List.filter_sublist r)
  exact List.Nodup.sublist hsub h

/-! Shape lemmas for the handlers. -/

theorem truthy_some (s : String) (h : s ≠ "") : truthy (some s) = true := by
  simp [truthy, h]

theorem truthy_iff (o : Option String) :
    truthy o = true ↔ ∃ s, o = some s ∧ s ≠ "" := by
  cases o <;> simp [truthy]

theorem destroyActs_some (r : Registry) (sid : String) (old : Session) (c : Nat)
    (h : mget r sid = some old) (hc : old.client = some c) :
    destroyActs r sid = [Act.destroyOld c] := by
  simp [destroyActs, h, hc]

theorem destroyActs_cases (r : Registry) (sid : String) :
    destroyActs r sid = [] ∨ ∃ c, destroyActs r sid = [Act.destroyOld c] := by
  cases hm : mget r sid with
  | none => exact Or.inl (by simp [destroyActs, hm])
  | some old =>
    cases hc : old.client with
    | none => exact Or.inl (by simp [destroyActs, hm, hc])
    | some c => exact Or.inr ⟨c, by simp [destroyActs, hm, hc]⟩

theorem waitActs_cases (e : ConfigEnv) :
    waitActs e = [] ∨
      (Act.deregWaitReady ∈ waitActs e ∧ Act.deregWaitErr ∈ waitActs e) := by
  unfold waitActs
  cases e.userAfterLogin with
  | some u => exact Or.inl rfl
  | none =>
    right
    cases e.waitEvt <;> simp [waitTrace]

theorem destroyOld_not_mem_waitActs (e : ConfigEnv) (c : Nat) :
    Act.destroyOld c ∉ waitActs e := by
  unfold waitActs
  cases e.userAfterLogin with
  | some u => simp
  | none => cases e.waitEvt <;> simp [waitTrace]

theorem configHandler_loginFail (req : ConfigReq) (e : ConfigEnv) (r : Registry)
    (s : String) (htok : truthy req.token = true) (hsid : req.sessionId = some s)
    (hne : s ≠ "") (hlf : e.loginFails = true) :
    configHandler req e r =
      (mdelete r s,
       destroyActs r s ++
         [Act.regLogReady, Act.login, Act.deleteSession, Act.respond 500],
       ⟨500, false, none⟩) := by
  simp [configHandler, htok, hsid, truthy_some s hne, hlf]

theorem configHandler_loginOk (req : ConfigReq) (e : ConfigEnv) (r : Registry)
    (s : String) (htok : truthy req.token = true) (hsid : req.sessionId = some s)
    (hne : s ≠ "") (hlf : e.loginFails = false) :
    configHandler req e r =
      (mset r s ⟨some e.fresh, jsOr req.clientId, e.now⟩,
       destroyActs r s ++ [Act.regLogReady, Act.login] ++ waitActs e ++
         [Act.setSession, Act.respond 200],
       ⟨200, true, e.userFinal⟩) := by
  simp [configHandler, htok, hsid, truthy_some s hne, hlf]

theorem sessionOnline_eq (ready : Nat → Bool) (r : Registry) (s : String) :
    sessionOnline ready r s = true ↔
      ∃ rec c, mget r s = some rec ∧ rec.client = some c ∧ ready c = true := by
  unfold sessionOnline
  cases hm : mget r s with
  | none => simp
  | some rec =>
    cases hc : rec.client with
    | none => simp [hc]
    | some c => simp [hc]

/-! Lemmas about the sweep. -/

theorem sweep_fst (now : Nat) (f : Nat → Bool) (r : Registry) :
    (sweep now f r).1 = r.filter (fun p => !expired now p.2.createdAt) := by
  induction r with
  | nil => rfl
  | cons hd tl ih =>
    obtain ⟨k, s⟩ := hd
    cases h : expired now s.createdAt <;>
      simp [sweep, h, List.filter_cons, ih]

theorem sweep_snd (now : Nat) (f : Nat → Bool) (r : Registry) :
    (sweep now f r).2 =
      (r.filter (fun p => expired now p.2.createdAt)).filterMap
        (fun p => p.2.client) := by
  induction r with
  | nil => rfl
  | cons hd tl ih =>
    obtain ⟨k, s⟩ := hd
    cases h : expired now s.createdAt
    · simp [sweep, h, List.filter_cons, ih]
    · cases hc : s.client <;>
        simp [sweep, h, hc, List.filter_cons, List.filterMap_cons, ih]

theorem sweep_indep (now : Nat) (f g : Nat → Bool) (r : Registry) :
    sweep now f r = sweep now g r := by
  induction r with
  | nil => rfl
  | cons hd tl ih =>
    obtain ⟨k, s⟩ := hd
    simp [sweep, ih]

/-! Claim theorems. -/

/-- C1 counterexample: a configuration request whose login succeeds and
whose error observer fires during the bounded wait is not answered with
HTTP 500 and does install a session record: the handler responds 200 with
`ok:true` and the registry holds the new record, refuting the claim at this
concrete input. -/
theorem c1_counterexample :
    (configHandler ⟨some "t", none, some "s1"⟩
        ⟨false, none, .err, none, 5, 7⟩ []).2.2.status = 200 ∧
    (configHandler ⟨some "t", none, some "s1"⟩
        ⟨false, none, .err, none, 5, 7⟩ []).2.2.ok = true ∧
    mget (configHandler ⟨some "t", none, some "s1"⟩
        ⟨false, none, .err, none, 5, 7⟩ []).1 "s1" = some ⟨some 7, none, 5⟩ := by
  decide

/-- C1 (amended): when login succeeds and the error observer fires first
during the bounded wait, the rejection is caught by the surrounding
`try/catch` and merely logged: the endpoint responds HTTP 200 with
`ok:true`, and the new session record is installed in the registry under
the given sessionKey. -/
theorem config_waitError_still_installs (req : ConfigReq) (e : ConfigEnv)
    (r : Registry) (s : String) (htok : truthy req.token = true)
    (hsid : req.sessionId = some s) (hne : s ≠ "")
    (hlf : e.loginFails = false) (hu : e.userAfterLogin = none)
    (hw : e.waitEvt = .err) :
    (configHandler req e r).2.2.status = 200 ∧
    (configHandler req e r).2.2.ok = true ∧
    mget (configHandler req e r).1 s =
      some ⟨some e.fresh, jsOr req.clientId, e.now⟩ ∧
    Act.logWaitError ∈ (configHandler req e r).2.1 := by
  rw [configHandler_loginOk req e r s htok hsid hne hlf]
  refine ⟨rfl, rfl, mget_mset_self r s _, ?_⟩
  simp [waitActs, hu, hw, waitTrace]

/-- C2: when login rejects, the catch block of `/api/config` deletes the
sessionKey from the registry and only then responds HTTP 500; afterwards no
record exists for that key. The login call is the only step of the handler
after validation whose exception reaches the catch block (old-client
destruction and the bounded wait swallow theirs). -/
theorem config_loginFail_no_record (req : ConfigReq) (e : ConfigEnv)
    (r : Registry) (s : String) (htok : truthy req.token = true)
    (hsid : req.sessionId = some s) (hne : s ≠ "")
    (hlf : e.loginFails = true) :
    (configHandler req e r).2.2.status = 500 ∧
    (configHandler req e r).2.2.ok = false ∧
    mget (configHandler req e r).1 s = none ∧
    (configHandler req e r).2.1 =
      destroyActs r s ++
        [Act.regLogReady, Act.login, Act.deleteSession, Act.respond 500] := by
  rw [configHandler_loginFail req e r s htok hsid hne hlf]
  exact ⟨rfl, rfl, mget_mdelete_self r s, rfl⟩

/-- C3: re-configuring a key whose record holds client `c₁` with a
successful login installs a record holding the fresh client, with the new
`clientId` and a fresh `createdAt`; destroy is requested on `c₁` exactly
once; and key uniqueness of the registry is preserved. -/
theorem config_replace_spec (req : ConfigReq) (e : ConfigEnv) (r : Registry)
    (s : String) (old : Session) (c₁ : Nat) (htok : truthy req.token = true)
    (hsid : req.sessionId = some s) (hne : s ≠ "")
    (hold : mget r s = some old) (hc : old.client = some c₁)
    (hlf : e.loginFails = false) :
    mget (configHandler req e r).1 s =
      some ⟨some e.fresh, jsOr req.clientId, e.now⟩ ∧
    List.count (Act.destroyOld c₁) (configHandler req e r).2.1 = 1 ∧
    (NodupKeys r → NodupKeys (configHandler req e r).1) := by
  rw [configHandler_loginOk req e r s htok hsid hne hlf]
  refine ⟨mget_mset_self r s _, ?_, fun h => nodupKeys_mset r s _ h⟩
  rw [destroyActs_some r s old c₁ hold hc]
  have h0 : List.count (Act.destroyOld c₁) (waitActs e) = 0 :=
    List.count_eq_zero.mpr (destroyOld_not_mem_waitActs e c₁)
  simp [List.count_append, List.count_cons, h0]

/-- C4: for every time `now`, the sweep removes exactly the records with
`now - createdAt > 3600000`, requesting destroy on each evicted record's
client, leaves every other record unchanged, and its outcome is independent
of which destroy requests fail (failures are swallowed); membership in the
surviving registry depends only on membership in the original and the
expiry test, not on iteration order. -/
theorem sweep_exact (now : Nat) (f g : Nat → Bool) (r : Registry) :
    (sweep now f r).1 = r.filter (fun p => !expired now p.2.createdAt) ∧
    (sweep now f r).2 =
      (r.filter (fun p => expired now p.2.createdAt)).filterMap
        (fun p => p.2.client) ∧
    sweep now f r = sweep now g r ∧
    ∀ p, p ∈ (sweep now f r).1 ↔
      (p ∈ r ∧ expired now p.2.createdAt = false) := by
  refine ⟨sweep_fst now f r, sweep_snd now f r, sweep_indep now f g r, ?_⟩
  intro p
  rw [sweep_fst now f r]
  simp [List.mem_filter]

/-- C5: a timed-out handshake is not an error: when login succeeds,
`client.user` is unset and neither observer fires within 5000 ms, the
endpoint responds HTTP 200 with `ok:true`, the `botTag` field carries
whatever identity is available when the response is built (null if none),
and the client is stored in the registry under the given sessionKey. -/
theorem config_timeout_ok (req : ConfigReq) (e : ConfigEnv) (r : Registry)
    (s : String) (htok : truthy req.token = true)
    (hsid : req.sessionId = some s) (hne : s ≠ "")
    (hlf : e.loginFails = false) (_hu : e.userAfterLogin = none)
    (_hw : e.waitEvt = .timeout) :
    (configHandler req e r).2.2 = ⟨200, true, e.userFinal⟩ ∧
    mget (configHandler req e r).1 s =
      some ⟨some e.fresh, jsOr req.clientId, e.now⟩ := by
  rw [configHandler_loginOk req e r s htok hsid hne hlf]
  exact ⟨rfl, mget_mset_self r s _⟩

/-- C6: disconnect is idempotent on absent keys: for a sessionId with no
record, `/api/disconnect` responds `{ok:true}`, requests no destroy, and
leaves the registry unchanged; a second disconnect for the same key behaves
identically. -/
theorem disconnect_idempotent (sidOpt : Option String) (r : Registry)
    (s : String) (hsid : sidOpt = some s) (hne : s ≠ "")
    (habs : mget r s = none) :
    disconnectHandler sidOpt r = (r, ⟨200, true⟩, []) ∧
    disconnectHandler sidOpt (disconnectHandler sidOpt r).1 =
      (r, ⟨200, true⟩, []) := by
  have h1 : disconnectHandler sidOpt r = (r, ⟨200, true⟩, []) := by
    simp [disconnectHandler, hsid, truthy_some s hne, habs]
  exact ⟨h1, by rw [h1]; exact h1⟩

/-- C7: with a sessionId present, `/api/status` responds `{online: b}`
where `b` is true exactly when a record exists for that key, its client is
set, and the client reports itself ready; in particular an absent record
yields `{online:false}`. -/
theorem status_spec (sidOpt : Option String) (s : String)
    (ready : Nat → Bool) (r : Registry) (hsid : sidOpt = some s)
    (hne : s ≠ "") :
    statusHandler sidOpt ready r = .online (sessionOnline ready r s) ∧
    (sessionOnline ready r s = true ↔
      ∃ rec c, mget r s = some rec ∧ rec.client = some c ∧ ready c = true) ∧
    (mget r s = none → statusHandler sidOpt ready r = .online false) := by
  have h0 : statusHandler sidOpt ready r = .online (sessionOnline ready r s) := by
    simp [statusHandler, hsid, truthy_some s hne]
  refine ⟨h0, sessionOnline_eq ready r s, fun habs => ?_⟩
  rw [h0]
  have : sessionOnline ready r s = false := by simp [sessionOnline, habs]
  rw [this]

/-- C8 counterexample: a concrete handshake execution whose full action
trace shows the login call at position 1 while the bounded wait's one-shot
ready observer is only registered at position 2, refuting the claim that
the wait's ready observer is registered before login is initiated. -/
theorem c8_counterexample :
    (configHandler ⟨some "tok", none, some "k1"⟩
        ⟨false, none, .timeout, none, 0, 1⟩ []).2.1 =
      [Act.regLogReady, Act.login, Act.regWaitReady, Act.regWaitErr,
       Act.deregWaitReady, Act.deregWaitErr, Act.setSession,
       Act.respond 200] ∧
    Act.regWaitReady ∈ (configHandler ⟨some "tok", none, some "k1"⟩
        ⟨false, none, .timeout, none, 0, 1⟩ []).2.1 ∧
    List.findIdx (fun a => a == Act.login)
        ((configHandler ⟨some "tok", none, some "k1"⟩
          ⟨false, none, .timeout, none, 0, 1⟩ []).2.1) <
      List.findIdx (fun a => a == Act.regWaitReady)
        ((configHandler ⟨some "tok", none, some "k1"⟩
          ⟨false, none, .timeout, none, 0, 1⟩ []).2.1) := by
  decide

/-- C8 (amended): a one-time ready observer (used only for logging) is
registered immediately before login; the one-shot observers used by the
bounded wait are registered only after login resolves, never before; and
whenever the wait's observers are attached, both are deregistered before
the handshake returns, regardless of which of ready, error or timeout
fired first. -/
theorem config_observer_discipline (req : ConfigReq) (e : ConfigEnv)
    (r : Registry) :
    (Act.regWaitReady ∈ (configHandler req e r).2.1 →
      Act.deregWaitReady ∈ (configHandler req e r).2.1 ∧
      Act.deregWaitErr ∈ (configHandler req e r).2.1) ∧
    (Act.login ∈ (configHandler req e r).2.1 →
      ∃ p q, (configHandler req e r).2.1 =
          p ++ [Act.regLogReady, Act.login] ++ q ∧
        Act.regWaitReady ∉ p ∧ Act.regWaitErr ∉ p) := by
  cases ht : truthy req.token with
  | false => simp [configHandler, ht]
  | true =>
    cases hs : truthy req.sessionId with
    | false => simp [configHandler, ht, hs]
    | true =>
      obtain ⟨s, hsid, hne⟩ := (truthy_iff req.sessionId).mp hs
      cases hl : e.loginFails with
      | true =>
        rw [configHandler_loginFail req e r s ht hsid hne hl]
        constructor
        · intro hmem
          exfalso
          rcases destroyActs_cases r s with hd | ⟨c, hd⟩ <;>
            rw [hd] at hmem <;> simp at hmem
        · intro _
          refine ⟨destroyActs r s, [Act.deleteSession, Act.respond 500],
            by simp, ?_, ?_⟩ <;>
            rcases destroyActs_cases r s with hd | ⟨c, hd⟩ <;>
            rw [hd] <;> simp
      | false =>
        rw [configHandler_loginOk req e r s ht hsid hne hl]
        constructor
        · intro hmem
          rcases waitActs_cases e with hw | ⟨h1, h2⟩
          · exfalso
            rw [hw] at hmem
            rcases destroyActs_cases r s with hd | ⟨c, hd⟩ <;>
              rw [hd] at hmem <;> simp at hmem
          · constructor <;> simp [List.mem_append] <;> tauto
        · intro _
          refine ⟨destroyActs r s,
            waitActs e ++ [Act.setSession, Act.respond 200],
            by simp, ?_, ?_⟩ <;>
            rcases destroyActs_cases r s with hd | ⟨c, hd⟩ <;>
            rw [hd] <;> simp

/-- C9: configuring a key that already has a live session and then failing
login does not preserve or restore the prior session: destroy is requested
on the previous client before the login attempt, and after the HTTP 500
response the registry holds no record for that key. -/
theorem config_reconfig_loginFail (req : ConfigReq) (e : ConfigEnv)
    (r : Registry) (s : String) (old : Session) (c₁ : Nat)
    (htok : truthy req.token = true) (hsid : req.sessionId = some s)
    (hne : s ≠ "") (hold : mget r s = some old)
    (hc : old.client = some c₁) (hlf : e.loginFails = true) :
    (configHandler req e r).2.2.status = 500 ∧
    mget (configHandler req e r).1 s = none ∧
    (configHandler req e r).2.1 =
      [Act.destroyOld c₁, Act.regLogReady, Act.login,
       Act.deleteSession, Act.respond 500] := by
  rw [configHandler_loginFail req e r s htok hsid hne hlf]
  refine ⟨rfl, mget_mdelete_self r s, ?_⟩
  rw [destroyActs_some r s old c₁ hold hc]
  rfl

/-- C10: in `/api/send` the not-connected check precedes the field
validation: with a sessionId present but no ready session, the response is
`bot não conectado` whatever `channelId` and `message` are; and the
`channelId e message são obrigatórios` error can only arise when the
session's client is ready. -/
theorem send_order_spec (req : SendReq) (ready : Nat → Bool)
    (out : SendOutcome) (r : Registry) (s : String)
    (hsid : req.sessionId = some s) (hne : s ≠ "") :
    (sessionOnline ready r s = false →
      sendHandler req ready out r = .badRequest "bot não conectado") ∧
    (sendHandler req ready out r =
        .badRequest "channelId e message são obrigatórios" →
      sessionOnline ready r s = true) := by
  refine ⟨fun hf => by simp [sendHandler, hsid, truthy_some s hne, hf],
    fun h => ?_⟩
  cases hon : sessionOnline ready r s with
  | true => rfl
  | false =>
    have hbot : sendHandler req ready out r = .badRequest "bot não conectado" := by
      simp [sendHandler, hsid, truthy_some s hne, hon]
    rw [hbot] at h
    exact absurd h (by decide)

/-! Witnesses: each claim theorem with hypotheses applied at a concrete
input, with every hypothesis discharged. -/

/-- Witness for the amended C1 theorem at a concrete input. -/
theorem config_waitError_still_installs_witness :
    (configHandler ⟨some "tok", some "app", some "w1"⟩
        ⟨false, none, .err, some "BotTag", 3, 2⟩ []).2.2.status = 200 ∧
    (configHandler ⟨some "tok", some "app", some "w1"⟩
        ⟨false, none, .err, some "BotTag", 3, 2⟩ []).2.2.ok = true ∧
    mget (configHandler ⟨some "tok", some "app", some "w1"⟩
        ⟨false, none, .err, some "BotTag", 3, 2⟩ []).1 "w1" =
      some ⟨some 2, some "app", 3⟩ ∧
    Act.logWaitError ∈ (configHandler ⟨some "tok", some "app", some "w1"⟩
        ⟨false, none, .err, some "BotTag", 3, 2⟩ []).2.1 := by
  have h := config_waitError_still_installs
      ⟨some "tok", some "app", some "w1"⟩
      ⟨false, none, .err, some "BotTag", 3, 2⟩ [] "w1"
      (by decide) rfl (by decide) rfl rfl rfl
  exact ⟨h.1, h.2.1, by simpa [jsOr] using h.2.2.1, h.2.2.2⟩

/-- Witness for the C2 theorem at a concrete input. -/
theorem config_loginFail_no_record_witness :
    (configHandler ⟨some "bad", none, some "s9"⟩
        ⟨true, none, .ready, none, 0, 1⟩
        [("s9", ⟨some 4, none, 0⟩)]).2.2.status = 500 ∧
    (configHandler ⟨some "bad", none, some "s9"⟩
        ⟨true, none, .ready, none, 0, 1⟩
        [("s9", ⟨some 4, none, 0⟩)]).2.2.ok = false ∧
    mget (configHandler ⟨some "bad", none, some "s9"⟩
        ⟨true, none, .ready, none, 0, 1⟩
        [("s9", ⟨some 4, none, 0⟩)]).1 "s9" = none ∧
    (configHandler ⟨some "bad", none, some "s9"⟩
        ⟨true, none, .ready, none, 0, 1⟩
        [("s9", ⟨some 4, none, 0⟩)]).2.1 =
      [Act.destroyOld 4, Act.regLogReady, Act.login,
       Act.deleteSession, Act.respond 500] := by
  have h := config_loginFail_no_record ⟨some "bad", none, some "s9"⟩
      ⟨true, none, .ready, none, 0, 1⟩ [("s9", ⟨some 4, none, 0⟩)] "s9"
      (by decide) rfl (by decide) rfl
  refine ⟨h.1, h.2.1, h.2.2.1, ?_⟩
  rw [h.2.2.2]
  decide

/-- Witness for the C3 theorem at a concrete input. -/
theorem config_replace_spec_witness :
    mget (configHandler ⟨some "t", some "app", some "s1"⟩
        ⟨false, some "u", .ready, some "u", 9, 2⟩
        [("s1", ⟨some 1, none, 0⟩)]).1 "s1" = some ⟨some 2, some "app", 9⟩ ∧
    List.count (Act.destroyOld 1)
        (configHandler ⟨some "t", some "app", some "s1"⟩
          ⟨false, some "u", .ready, some "u", 9, 2⟩
          [("s1", ⟨some 1, none, 0⟩)]).2.1 = 1 ∧
    NodupKeys (configHandler ⟨some "t", some "app", some "s1"⟩
        ⟨false, some "u", .ready, some "u", 9, 2⟩
        [("s1", ⟨some 1, none, 0⟩)]).1 := by
  have h := config_replace_spec ⟨some "t", some "app", some "s1"⟩
      ⟨false, some "u", .ready, some "u", 9, 2⟩
      [("s1", ⟨some 1, none, 0⟩)] "s1" ⟨some 1, none, 0⟩ 1
      (by decide) rfl (by decide) (by decide) rfl rfl
  exact ⟨by simpa [jsOr] using h.1, h.2.1, h.2.2 (by unfold NodupKeys; decide)⟩

/-- Witness for the C4 theorem at a concrete input: the unexpired record
survives the sweep. -/
theorem sweep_exact_witness :
    ("a", (⟨some 1, none, 0⟩ : Session)) ∈
        (sweep 3600000 (fun _ => false) [("a", ⟨some 1, none, 0⟩)]).1 ↔
      (("a", (⟨some 1, none, 0⟩ : Session)) ∈
          [("a", (⟨some 1, none, 0⟩ : Session))] ∧
        expired 3600000 0 = false) :=
  (sweep_exact 3600000 (fun _ => false) (fun _ => true)
    [("a", ⟨some 1, none, 0⟩)]).2.2.2 ("a", ⟨some 1, none, 0⟩)

/-- Witness for the C5 theorem at a concrete input. -/
theorem config_timeout_ok_witness :
    (configHandler ⟨some "t", none, some "s5"⟩
        ⟨false, none, .timeout, none, 4, 3⟩ []).2.2 = ⟨200, true, none⟩ ∧
    mget (configHandler ⟨some "t", none, some "s5"⟩
        ⟨false, none, .timeout, none, 4, 3⟩ []).1 "s5" =
      some ⟨some 3, none, 4⟩ := by
  have h := config_timeout_ok ⟨some "t", none, some "s5"⟩
      ⟨false, none, .timeout, none, 4, 3⟩ [] "s5"
      (by decide) rfl (by decide) rfl rfl rfl
  exact ⟨h.1, by simpa [jsOr] using h.2⟩

/-- Witness for the C6 theorem at a concrete input. -/
theorem disconnect_idempotent_witness :
    disconnectHandler (some "never") [("other", ⟨some 9, none, 0⟩)] =
      ([("other", ⟨some 9, none, 0⟩)], ⟨200, true⟩, []) ∧
    disconnectHandler (some "never")
        (disconnectHandler (some "never")
          [("other", ⟨some 9, none, 0⟩)]).1 =
      ([("other", ⟨some 9, none, 0⟩)], ⟨200, true⟩, []) :=
  disconnect_idempotent (some "never") [("other", ⟨some 9, none, 0⟩)]
    "never" rfl (by decide) (by decide)

/-- Witness for the C7 theorem at a concrete input. -/
theorem status_spec_witness :
    statusHandler (some "s1") (fun c => c == 5)
        [("s1", ⟨some 5, none, 0⟩)] = .online true ∧
    sessionOnline (fun c => c == 5) [("s1", ⟨some 5, none, 0⟩)] "s1" =
      true := by
  have h := status_spec (some "s1") "s1" (fun c => c == 5)
      [("s1", ⟨some 5, none, 0⟩)] rfl (by decide)
  have hon : sessionOnline (fun c => c == 5)
      [("s1", ⟨some 5, none, 0⟩)] "s1" = true :=
    h.2.1.mpr ⟨⟨some 5, none, 0⟩, 5, by decide, rfl, by decide⟩
  exact ⟨by rw [h.1, hon], hon⟩

/-- Witness for the amended C8 theorem at a concrete input. -/
theorem config_observer_discipline_witness :
    Act.deregWaitReady ∈ (configHandler ⟨some "tok", none, some "k2"⟩
        ⟨false, none, .ready, none, 0, 1⟩ []).2.1 ∧
    Act.deregWaitErr ∈ (configHandler ⟨some "tok", none, some "k2"⟩
        ⟨false, none, .ready, none, 0, 1⟩ []).2.1 ∧
    ∃ p q, (configHandler ⟨some "tok", none, some "k2"⟩
          ⟨false, none, .ready, none, 0, 1⟩ []).2.1 =
        p ++ [Act.regLogReady, Act.login] ++ q ∧
      Act.regWaitReady ∉ p ∧ Act.regWaitErr ∉ p := by
  have h := config_observer_discipline ⟨some "tok", none, some "k2"⟩
      ⟨false, none, .ready, none, 0, 1⟩ []
  exact ⟨(h.1 (by decide)).1, (h.1 (by decide)).2, h.2 (by decide)⟩

/-- Witness for the C9 theorem at a concrete input. -/
theorem config_reconfig_loginFail_witness :
    (configHandler ⟨some "bad", none, some "s3"⟩
        ⟨true, none, .ready, none, 0, 9⟩
        [("s3", ⟨some 8, some "oldapp", 100⟩)]).2.2.status = 500 ∧
    mget (configHandler ⟨some "bad", none, some "s3"⟩
        ⟨true, none, .ready, none, 0, 9⟩
        [("s3", ⟨some 8, some "oldapp", 100⟩)]).1 "s3" = none ∧
    (configHandler ⟨some "bad", none, some "s3"⟩
        ⟨true, none, .ready, none, 0, 9⟩
        [("s3", ⟨some 8, some "oldapp", 100⟩)]).2.1 =
      [Act.destroyOld 8, Act.regLogReady, Act.login,
       Act.deleteSession, Act.respond 500] :=
  config_reconfig_loginFail ⟨some "bad", none, some "s3"⟩
    ⟨true, none, .ready, none, 0, 9⟩
    [("s3", ⟨some 8, some "oldapp", 100⟩)] "s3"
    ⟨some 8, some "oldapp", 100⟩ 8
    (by decide) rfl (by decide) (by decide) rfl rfl

/-- Witness for the C10 theorem: a present session whose client is not
ready, with `channelId` and `message` both missing, still gets the
not-connected error. -/
theorem send_order_spec_witness :
    sendHandler ⟨none, none, some "s1"⟩ (fun _ => false) .fetchNull
        [("s1", ⟨some 5, none, 0⟩)] = .badRequest "bot não conectado" := by
  have h := send_order_spec ⟨none, none, some "s1"⟩ (fun _ => false)
      .fetchNull [("s1", ⟨some 5, none, 0⟩)] "s1" rfl (by decide)
  exact h.1 (by decide)

end Dashboard
